import Mathlib

/-!
Verification of the idleDetector stage-classification engine.

The definitions below are a shallow embedding of the Python sources:
  * `src/idle_detector/models/_dataclasses.py` — `idleStages`, its stage
    lists, `threshold`, and the `StageNotified` notification gate;
  * `src/idle_detector/models/stage_manager.py` — `StageManager`
    (`get_machines_available_stages`, `update_display_off_stage`, and
    `detect_current_stage` with its final stage-resolution loop);
  * `src/idle_detector/models/machine.py` — `MacOS.check_display_modes`
    and the signature of `MacOS.modes_are_set`;
  * `src/idle_detector/models/time_handler.py` — `idleSeconds.is_idle`;
  * `src/idle_detector/utils/common.py` — `IS_IDLE_START_TIME`,
    `NULL_INFINITY`, `validate_interval_value`, `to_seconds`,
    `reverse_sort`, and the module-level `DISPLAY_WAS_OFF` flag.

Python `Decimal` arithmetic on the values that occur here (decimal
literals, halves and quarters) is exact, so seconds and thresholds are
modelled as rationals (`ℚ`); `Decimal("inf")` is modelled by a dedicated
infinity constructor.  Absent values (`None`) are `Option`; Python
truthiness of an optional number (`None` and `0` are falsy) is
`optTruthy`.  Exceptions are modelled with `Except`.
-/

namespace IdleDetector

/-! ## Stage catalog (`_dataclasses.py`, class `idleStages`) -/

/-- The eight members of the `idleStages` enum, in declaration order. -/
inductive idleStages where
  | USER_ACTIVE
  | USER_IDLE
  | HALFWAY_TO_SCREENSAVER
  | THREE_QUARTERS_TO_SCREENSAVER
  | SCREENSAVER
  | DISPLAY_OFF_WARNING
  | DISPLAY_OFF
  | WAKE_UP
deriving DecidableEq, BEq, Repr

open idleStages

/-- `idleStages.StageLevels`: numeric level of each stage (0..7). -/
def stageLevel : idleStages → ℕ
  | USER_ACTIVE => 0
  | USER_IDLE => 1
  | HALFWAY_TO_SCREENSAVER => 2
  | THREE_QUARTERS_TO_SCREENSAVER => 3
  | SCREENSAVER => 4
  | DISPLAY_OFF_WARNING => 5
  | DISPLAY_OFF => 6
  | WAKE_UP => 7

/-- Iteration order of the Python enum (its declaration order). -/
def allStages : List idleStages :=
  [USER_ACTIVE, USER_IDLE, HALFWAY_TO_SCREENSAVER, THREE_QUARTERS_TO_SCREENSAVER,
   SCREENSAVER, DISPLAY_OFF_WARNING, DISPLAY_OFF, WAKE_UP]

/-- Insert a stage into a list sorted ascending by `stageLevel`. -/
def insertByLevel (s : idleStages) : List idleStages → List idleStages
  | [] => [s]
  | t :: ts =>
      if stageLevel s < stageLevel t then s :: t :: ts else t :: insertByLevel s ts

/-- `idleStages.sort_stages`: sort stages ascending by `stageLevel`
(Python `sorted` with the stage-level key; levels are distinct, so any
correct sort gives the same list). -/
def sortStages (l : List idleStages) : List idleStages :=
  l.foldr insertByLevel []

/-- `idleStages.non_idle_stages()` = sorted `[USER_ACTIVE, WAKE_UP]`. -/
def nonIdleStages : List idleStages :=
  sortStages [USER_ACTIVE, WAKE_UP]

/-- `idleStages.idle_mode_stages()`: all stages except the non-idle ones. -/
def idleModeStages : List idleStages :=
  sortStages (allStages.filter (fun s => !nonIdleStages.contains s))

/-- `idleStages.idle_only_stages()` = sorted non-idle stages plus `USER_IDLE`. -/
def idleOnlyStages : List idleStages :=
  sortStages (nonIdleStages ++ [USER_IDLE])

/-- `idleStages.screensaver_mode_stages()` = `idle_mode_stages()[:-2]`. -/
def screensaverModeStages : List idleStages :=
  idleModeStages.dropLast.dropLast

/-- `idleStages.display_off_only_stages()` = sorted `[DISPLAY_OFF_WARNING, DISPLAY_OFF]`. -/
def displayOffOnlyStages : List idleStages :=
  sortStages [DISPLAY_OFF_WARNING, DISPLAY_OFF]

/-- `idleStages.display_off_stages(consider_screensaver_as_off)`:
`[SCREENSAVER] + display_off_only_stages()`, truncated to its last
element (`[-1:]`, i.e. `[DISPLAY_OFF]`) unless the flag is set. -/
def displayOffStages (considerScreensaverAsOff : Bool) : List idleStages :=
  let l := SCREENSAVER :: displayOffOnlyStages
  if considerScreensaverAsOff then l else l.drop (l.length - 1)

/-- `idleStages.is_display_off_stage`. -/
def isDisplayOffStage (s : idleStages) : Bool :=
  displayOffOnlyStages.contains s

/-- `idleStages.is_screensaver_stage`. -/
def isScreensaverStage (s : idleStages) : Bool :=
  screensaverModeStages.contains s

/-- `idleStages.stages_compatible_for_alerts()` =
`StageNotified.compatible_stages`. -/
def stagesCompatibleForAlerts : List idleStages :=
  [HALFWAY_TO_SCREENSAVER, THREE_QUARTERS_TO_SCREENSAVER, SCREENSAVER,
   DISPLAY_OFF_WARNING, WAKE_UP]

/-- `idleStages.is_alert_stage`. -/
def isAlertStage (s : idleStages) : Bool :=
  stagesCompatibleForAlerts.contains s

/-! ## Threshold arithmetic (`_dataclasses.py`, `idleStages.threshold`) -/

/-- A `Decimal` value that is either finite or `Decimal("inf")`
(`NULL_INFINITY` in `utils/common.py`). -/
inductive DVal where
  | fin : ℚ → DVal
  | inf : DVal
deriving DecidableEq, Repr

/-- `to_seconds(reference_seconds) or NULL_INFINITY` for a plain number:
`to_seconds` returns a plain number unchanged, and `or` replaces the
falsy value `0` with infinity. -/
def toSecondsOrInf (r : ℚ) : DVal :=
  if r = 0 then .inf else .fin r

/-- `idleStages.threshold(reference_seconds)`.

The Python body picks an operator (`mul`, `sub` or `add`) and a per-stage
constant, sorts the pair `[seconds, Decimal(constant)]` descending
(`reverse_sort`), applies the operator, and takes `abs`.  On a finite
value `s` that is exactly `|s * c|` for `mul` and `|s - c|` for `sub`
(the descending sort followed by `abs` yields the absolute difference),
and `|s + 0| = |s|` for the default `add`/`0` case; every case maps
`Decimal("inf")` to `Decimal("inf")`.  The constant for
`DISPLAY_OFF_WARNING` is `15` when `seconds <= TimeTypes.MINUTES` (60)
and `45` otherwise. -/
def threshold (stage : idleStages) (referenceSeconds : ℚ) : DVal :=
  match toSecondsOrInf referenceSeconds with
  | .inf => .inf
  | .fin s =>
      match stage with
      | HALFWAY_TO_SCREENSAVER => .fin |s * (1 / 2)|
      | THREE_QUARTERS_TO_SCREENSAVER => .fin |s * (3 / 4)|
      | SCREENSAVER => .fin |s - 5|
      | DISPLAY_OFF_WARNING => .fin (if s ≤ 60 then |s - 15| else |s - 45|)
      | _ => .fin |s|

/-- Strict comparison `seconds > threshold` against a possibly infinite
`Decimal`: no finite value exceeds infinity. -/
def qGtD (q : ℚ) : DVal → Bool
  | .fin t => decide (q > t)
  | .inf => false

/-! ## Idle-time sensor value (`time_handler.py`, `utils/common.py`) -/

/-- `IS_IDLE_START_TIME = Decimal(1e-1)`: the exact value of the binary64
float `0.1`, namely `3602879701896397 / 2^55`. -/
def IS_IDLE_START_TIME : ℚ := 3602879701896397 / 36028797018963968

/-- `idleSeconds.is_idle()`: `seconds >= IS_IDLE_START_TIME`. -/
def isIdle (seconds : ℚ) : Bool :=
  decide (seconds ≥ IS_IDLE_START_TIME)

/-- Python truthiness of an optional number: `None` and `0` are falsy. -/
def optTruthy : Option ℚ → Bool
  | none => false
  | some q => decide (q ≠ 0)

/-- `validate_interval_value(interval)`: the interval itself when truthy,
else `None`. -/
def validateIntervalValue (interval : Option ℚ) : Option ℚ :=
  if optTruthy interval then interval else none

/-! ## Notification gate (`_dataclasses.py`, `idleStages.StageNotified`) -/

/-- A `StageNotified` namespace: attribute lookup by stage value.  The
underlying `SerializedNamespace.__getattribute__` returns `None` for an
attribute that was never set, so the lookup result is an
`Option Bool`. -/
def StageNotified := idleStages → Option Bool

/-- `idleStages.notifier_stages()`: a `StageNotified` created with every
alert-compatible stage mapped to `False` (and nothing else set). -/
def notifierStages : StageNotified :=
  fun s => if isAlertStage s then some false else none

/-- `StageNotified.toggle_notified_status(stage)`: set the attribute to
the Python negation of its current value (`not None` is `True`). -/
def toggleNotifiedStatus (m : StageNotified) (stage : idleStages) : StageNotified :=
  fun t =>
    if t = stage then
      some (match m stage with
            | some b => !b
            | none => true)
    else m t

/-- `StageNotified.stage_was_notified(stage)`: `get_stage(stage) is True`. -/
def stageWasNotified (m : StageNotified) (stage : idleStages) : Bool :=
  m stage == some true

/-- `SerializedNamespace.reset_attributes` applied to the map built by
`notifier_stages()`: restore every constructor keyword (each
alert-compatible stage) to its initial value `False`; other attributes
are untouched. -/
def resetAttributes (m : StageNotified) : StageNotified :=
  fun t => if isAlertStage t then some false else m t

/-! ## Stage manager session state (`stage_manager.py`) -/

/-- Per-session state threaded through polls.  `displayWasOff` is the
module-level `DISPLAY_WAS_OFF` flag in `utils/common.py` (the value the
wake check reads and clears); `displayWasOffField` is the instance field
`StageManager.display_was_off`, which `update_display_off_stage` sets
together with the global but the wake branch does not clear. -/
structure Session where
  idleStage : idleStages
  displayWasOff : Bool
  displayWasOffField : Bool
  totalSecondsBeforeWaking : Option ℚ
deriving DecidableEq, Repr

/-- `StageManager.update_display_off_stage(total_seconds, idle_stage)`:
record the idle-seconds snapshot, commit the given stage, and set both
the instance field and the module-level `DISPLAY_WAS_OFF` to `True`. -/
def updateDisplayOffStage (totalSeconds : ℚ) (stage : idleStages)
    (st : Session) : Session :=
  { st with
    totalSecondsBeforeWaking := some totalSeconds
    idleStage := stage
    displayWasOff := true
    displayWasOffField := true }

/-- `StageManager.get_machines_available_stages(screensaver_mode,
display_off_mode)`. -/
def getMachinesAvailableStages (screensaverMode displayOffMode : Bool) :
    List idleStages :=
  if screensaverMode && displayOffMode then idleModeStages
  else if displayOffMode then displayOffStages false
  else if screensaverMode then screensaverModeStages
  else idleOnlyStages

/-! ## The final stage-resolution loop (`detect_current_stage`, lines 181-244) -/

/-- Per-poll context for the resolution loop: the measured idle seconds,
the validated custom interval (`reference_interval`, which is also the
truthiness of `user_set_custom_idle_interval`), the two fetched timeouts,
and the `is_display_off` determination. -/
structure ResolveCtx where
  seconds : ℚ
  refInterval : Option ℚ
  screensaverTime : Option ℚ
  displayOffTime : Option ℚ
  isDisplayOff : Bool
deriving DecidableEq, Repr

/-- The per-stage `reference_seconds` choice (lines 185-208): the custom
interval when present; otherwise the display-off timeout for display-off
stages or the screensaver timeout for screensaver stages, each guarded by
the timeout's truthiness; `none` means the loop breaks at this stage. -/
def refFor (ctx : ResolveCtx) (stage : idleStages) : Option ℚ :=
  match ctx.refInterval with
  | some r => some r
  | none =>
      if optTruthy ctx.displayOffTime && isDisplayOffStage stage then
        ctx.displayOffTime
      else if optTruthy ctx.screensaverTime && isScreensaverStage stage then
        ctx.screensaverTime
      else none

/-- One pass of the `for idle_stage in self.available_idle_stages` loop
(lines 184-244).  A stage with no reference breaks out of the loop.  A
stage whose condition `is_display_off or seconds > threshold` holds is
tentatively committed; if a custom interval is set the loop commits
`USER_IDLE` through `update_display_off_stage` and breaks; if the stage
is at or beyond `SCREENSAVER` while `is_display_off` holds the loop
commits that stage through `update_display_off_stage` and breaks;
otherwise the loop continues with the next stage (a later matching stage
overwrites the tentative selection). -/
def stageWalk (ctx : ResolveCtx) : List idleStages → Session → Session
  | [], st => st
  | stage :: rest, st =>
      match refFor ctx stage with
      | none => st
      | some ref =>
          if ctx.isDisplayOff || qGtD ctx.seconds (threshold stage ref) then
            let st1 : Session := { st with idleStage := stage }
            if ctx.refInterval.isSome then
              updateDisplayOffStage ctx.seconds USER_IDLE st1
            else if stageLevel SCREENSAVER ≤ stageLevel stage && ctx.isDisplayOff then
              updateDisplayOffStage ctx.seconds stage st1
            else
              stageWalk ctx rest st1
          else stageWalk ctx rest st

/-- Lines 128-244 of `detect_current_stage`: everything after the mode
queries, given the three mode booleans the queries would produce.
Computes `reference_interval` (the custom interval only when valid and no
modes are set), returns unchanged state when none of
`{screensaver_time, display_off_time, reference_interval}` is truthy
(`reference_timers.has_arguments()` fails), and otherwise runs the
resolution loop over the reachable stage set with the `is_display_off`
determination. -/
def resolveStage (modesAreSet hasSleepMode hasDisplayOffMode : Bool)
    (idleInterval : Option ℚ) (considerScreensaverAsOff : Bool)
    (screensaverTime displayOffTime : Option ℚ)
    (screensaverRunning displayTurnedOff : Bool)
    (seconds : ℚ) (st : Session) : Session :=
  let refInterval : Option ℚ :=
    if optTruthy (validateIntervalValue idleInterval) && !modesAreSet then
      idleInterval
    else none
  if !(optTruthy screensaverTime || optTruthy displayOffTime ||
       optTruthy refInterval) then
    st
  else
    let stages := getMachinesAvailableStages hasSleepMode hasDisplayOffMode
    let displayIsConsideredOff := considerScreensaverAsOff && hasSleepMode
    let isDisplayOff := screensaverRunning || displayTurnedOff ||
      displayIsConsideredOff
    stageWalk
      { seconds := seconds
        refInterval := refInterval
        screensaverTime := screensaverTime
        displayOffTime := displayOffTime
        isDisplayOff := isDisplayOff }
      stages st

/-! ## The full poll (`detect_current_stage`) -/

/-- Exceptions a poll can raise. -/
inductive PyErr where
  | assertionError
  | typeError
deriving DecidableEq, Repr

/-- Caller options of `detect_current_stage`. -/
structure PollArgs where
  idleInterval : Option ℚ
  considerScreensaverAsOff : Bool
deriving DecidableEq, Repr

/-- One poll's sensor snapshot: the measured idle seconds, the two
fetched timeouts, and the two live booleans. -/
structure PollInput where
  idleSeconds : ℚ
  displayOffTime : Option ℚ
  screensaverTime : Option ℚ
  screensaverRunning : Bool
  displayTurnedOff : Bool
deriving DecidableEq, Repr

/-- `MacOS.check_display_modes(screensaver_time, display_off_time)`:
when both values are truthy, assert that the display-off time is strictly
greater than the screensaver time.  Returns `true` when no
`AssertionError` is raised. -/
def checkDisplayModes (screensaverTime displayOffTime : Option ℚ) : Bool :=
  if optTruthy screensaverTime && optTruthy displayOffTime then
    decide (displayOffTime.getD 0 > screensaverTime.getD 0)
  else true

/-- Parameters (besides `self`) of `MacOS.modes_are_set`
(machine.py lines 365-375): it declares none. -/
def modesAreSetParams : List String := []

/-- Keyword arguments passed to `machine.modes_are_set` at
stage_manager.py line 125. -/
def modesAreSetCallKwargs : List String := ["verify_both_are_set"]

/-- Python binds every keyword argument of a call to a declared parameter
name; a keyword that matches no parameter raises `TypeError` when the
call is made.  The call is well formed only if every keyword used is a
declared parameter. -/
def modesAreSetCallOk : Bool :=
  modesAreSetCallKwargs.all (fun k => modesAreSetParams.contains k)

/-- `StageManager.detect_current_stage`, one poll over a sensor snapshot
and the session state.  In source order: `check_display_modes` (line 95,
`AssertionError` on invalid configuration), the baseline stage
(line 99), the one-shot wake transition (lines 108-115, which clears only
the module-level `DISPLAY_WAS_OFF` and returns), and then the
`asyncio.gather` of lines 118-126, whose argument
`machine.modes_are_set(verify_both_are_set=False)` raises `TypeError`
(`modesAreSetCallOk` is false), so the remainder of the poll is
unreachable; were the call well formed, the poll would continue into
`resolveStage` with the mode flags derived from the fetched timeouts
(`has_sleep_mode` / `has_display_off_mode` are non-`None` checks of the
same sources, cached per process). -/
def detectCurrentStage (args : PollArgs) (inp : PollInput) (st : Session) :
    Session × Except PyErr Unit :=
  if !checkDisplayModes inp.screensaverTime inp.displayOffTime then
    (st, .error .assertionError)
  else
    let machineIsIdle := isIdle inp.idleSeconds
    let st1 : Session :=
      { st with idleStage := if machineIsIdle then USER_IDLE else USER_ACTIVE }
    if st1.displayWasOff && !machineIsIdle then
      ({ st1 with idleStage := WAKE_UP, displayWasOff := false }, .ok ())
    else if modesAreSetCallOk then
      let hasSleep := inp.screensaverTime.isSome
      let hasDispOff := inp.displayOffTime.isSome
      (resolveStage (hasSleep && hasDispOff) hasSleep hasDispOff
        args.idleInterval args.considerScreensaverAsOff
        inp.screensaverTime inp.displayOffTime
        inp.screensaverRunning inp.displayTurnedOff
        inp.idleSeconds st1, .ok ())
    else
      (st1, .error .typeError)

/-! ## Specification-side vocabulary for the resolution loop -/

/-- A stage whose reference is available and whose threshold the current
idle seconds strictly exceed. -/
def satisfiesThreshold (ctx : ResolveCtx) (stage : idleStages) : Bool :=
  match refFor ctx stage with
  | some r => qGtD ctx.seconds (threshold stage r)
  | none => false

/-- The last stage, in walk order, whose threshold is satisfied among the
stages visited before the loop's first missing-reference break.  Used to
state the corrected form of the walk's selection rule. -/
def walkLastSatisfied (ctx : ResolveCtx) : List idleStages → Option idleStages
  | [] => none
  | stage :: rest =>
      if (refFor ctx stage).isSome then
        match walkLastSatisfied ctx rest with
        | some t => some t
        | none => if satisfiesThreshold ctx stage then some stage else none
      else none

/-! ## Computed values of the stage lists and class predicates -/

lemma idleModeStages_eq :
    idleModeStages = [USER_IDLE, HALFWAY_TO_SCREENSAVER,
      THREE_QUARTERS_TO_SCREENSAVER, SCREENSAVER, DISPLAY_OFF_WARNING,
      DISPLAY_OFF] := rfl

lemma idleOnlyStages_eq :
    idleOnlyStages = [USER_ACTIVE, USER_IDLE, WAKE_UP] := rfl

lemma displayOffStages_false_eq :
    displayOffStages false = [DISPLAY_OFF] := rfl

@[simp] lemma isDisplayOffStage_USER_ACTIVE :
    isDisplayOffStage USER_ACTIVE = false := rfl

@[simp] lemma isDisplayOffStage_WARNING :
    isDisplayOffStage DISPLAY_OFF_WARNING = true := rfl

@[simp] lemma isDisplayOffStage_WAKE_UP : isDisplayOffStage WAKE_UP = false := rfl

@[simp] lemma isScreensaverStage_USER_ACTIVE :
    isScreensaverStage USER_ACTIVE = false := rfl

@[simp] lemma isScreensaverStage_WARNING :
    isScreensaverStage DISPLAY_OFF_WARNING = false := rfl

@[simp] lemma isScreensaverStage_DISPLAY_OFF :
    isScreensaverStage DISPLAY_OFF = false := rfl

@[simp] lemma isScreensaverStage_WAKE_UP :
    isScreensaverStage WAKE_UP = false := rfl

@[simp] lemma isDisplayOffStage_USER_IDLE : isDisplayOffStage USER_IDLE = false := rfl

@[simp] lemma isDisplayOffStage_HALFWAY :
    isDisplayOffStage HALFWAY_TO_SCREENSAVER = false := rfl

@[simp] lemma isDisplayOffStage_THREE_QUARTERS :
    isDisplayOffStage THREE_QUARTERS_TO_SCREENSAVER = false := rfl

@[simp] lemma isDisplayOffStage_SCREENSAVER :
    isDisplayOffStage SCREENSAVER = false := rfl

@[simp] lemma isDisplayOffStage_DISPLAY_OFF :
    isDisplayOffStage DISPLAY_OFF = true := rfl

@[simp] lemma isScreensaverStage_USER_IDLE : isScreensaverStage USER_IDLE = true := rfl

@[simp] lemma isScreensaverStage_HALFWAY :
    isScreensaverStage HALFWAY_TO_SCREENSAVER = true := rfl

@[simp] lemma isScreensaverStage_THREE_QUARTERS :
    isScreensaverStage THREE_QUARTERS_TO_SCREENSAVER = true := rfl

@[simp] lemma isScreensaverStage_SCREENSAVER :
    isScreensaverStage SCREENSAVER = true := rfl

lemma toSecondsOrInf_of_ne (R : ℚ) (h : R ≠ 0) : toSecondsOrInf R = DVal.fin R := by
  simp [toSecondsOrInf, h]

lemma threshold_halfway (R : ℚ) (hR : 0 < R) :
    threshold HALFWAY_TO_SCREENSAVER R = DVal.fin (R * (1 / 2)) := by
  simp only [threshold, toSecondsOrInf_of_ne R (ne_of_gt hR)]
  rw [abs_of_pos (by positivity)]

lemma threshold_three_quarters (R : ℚ) (hR : 0 < R) :
    threshold THREE_QUARTERS_TO_SCREENSAVER R = DVal.fin (R * (3 / 4)) := by
  simp only [threshold, toSecondsOrInf_of_ne R (ne_of_gt hR)]
  rw [abs_of_pos (by positivity)]

lemma threshold_screensaver (R : ℚ) (hR : 0 < R) :
    threshold SCREENSAVER R = DVal.fin |R - 5| := by
  simp only [threshold, toSecondsOrInf_of_ne R (ne_of_gt hR)]

lemma threshold_warning (R : ℚ) (hR : 0 < R) :
    threshold DISPLAY_OFF_WARNING R =
      DVal.fin (if R ≤ 60 then |R - 15| else |R - 45|) := by
  simp only [threshold, toSecondsOrInf_of_ne R (ne_of_gt hR)]

lemma threshold_of_default (s : idleStages)
    (hs : s = USER_ACTIVE ∨ s = USER_IDLE ∨ s = DISPLAY_OFF ∨ s = WAKE_UP)
    (R : ℚ) (hR : 0 < R) : threshold s R = DVal.fin R := by
  rcases hs with h | h | h | h <;> subst h <;>
    simp [threshold, toSecondsOrInf_of_ne R (ne_of_gt hR), abs_of_pos hR]

/-- The wake transition of `detect_current_stage` (lines 108-115): a
valid configuration, a set `DISPLAY_WAS_OFF`, and a no-longer-idle
machine commit `WAKE_UP`, clear the module-level flag and return. -/
lemma detect_wake (args : PollArgs) (inp : PollInput) (st : Session)
    (h1 : st.displayWasOff = true)
    (h2 : isIdle inp.idleSeconds = false)
    (h3 : checkDisplayModes inp.screensaverTime inp.displayOffTime = true) :
    detectCurrentStage args inp st =
      ({ st with idleStage := WAKE_UP, displayWasOff := false }, .ok ()) := by
  simp [detectCurrentStage, h1, h2, h3]

/-! ## Claims -/

/-- C1 (counterexample): the claim says every stage other than the four
threshold-bearing ones has threshold `0` for every positive finite
reference.  At stage `USER_IDLE` and reference `300` the code computes
`abs(add(300, 0)) = 300`, not `0`. -/
theorem C1_counterexample :
    threshold USER_IDLE 300 = DVal.fin 300 ∧ DVal.fin 300 ≠ DVal.fin 0 := by
  refine ⟨threshold_of_default USER_IDLE (by simp) 300 (by norm_num), ?_⟩
  simp only [ne_eq, DVal.fin.injEq]
  norm_num

/-- C1 (amended): for every positive finite reference `R`, the stages
`USER_ACTIVE`, `USER_IDLE`, `DISPLAY_OFF` and `WAKE_UP` have threshold
`R` itself (the reference value is used as-is), so their trigger
condition `idleSeconds > threshold` requires the idle time to exceed the
full reference, not merely to be positive. -/
theorem C1_default_threshold_is_reference (R : ℚ) (hR : 0 < R) :
    threshold USER_ACTIVE R = DVal.fin R ∧
    threshold USER_IDLE R = DVal.fin R ∧
    threshold DISPLAY_OFF R = DVal.fin R ∧
    threshold WAKE_UP R = DVal.fin R :=
  ⟨threshold_of_default USER_ACTIVE (by simp) R hR,
   threshold_of_default USER_IDLE (by simp) R hR,
   threshold_of_default DISPLAY_OFF (by simp) R hR,
   threshold_of_default WAKE_UP (by simp) R hR⟩

/-- C1 (witness): the amended theorem applied at `R = 300`. -/
theorem C1_witness :
    (0 : ℚ) < 300 ∧ threshold USER_ACTIVE 300 = DVal.fin 300 :=
  ⟨by norm_num, (C1_default_threshold_is_reference 300 (by norm_num)).1⟩

/-- C7 (counterexample): the claim says
`threshold(DisplayOffWarning, R) = R - 15` when `R ≤ 60`.  At `R = 10`
the code computes the absolute difference `|10 - 15| = 5`, not `-5`. -/
theorem C7_counterexample :
    threshold DISPLAY_OFF_WARNING 10 = DVal.fin 5 ∧
    threshold DISPLAY_OFF_WARNING 10 ≠ DVal.fin (10 - 15) := by
  have h : threshold DISPLAY_OFF_WARNING 10 = DVal.fin 5 := by
    norm_num [threshold, toSecondsOrInf]
  refine ⟨h, ?_⟩
  rw [h]
  simp only [ne_eq, DVal.fin.injEq]
  norm_num

/-- C7 (amended): for every positive finite reference `R`,
`threshold(HalfwayToScreensaver, R) = 0.5 * R`,
`threshold(ThreeQuartersToScreensaver, R) = 0.75 * R`,
`threshold(Screensaver, R) = |R - 5|` (the absolute difference, never
negative), and `threshold(DisplayOffWarning, R)` is likewise the
absolute difference `|R - 15|` when `R ≤ 60` and `|R - 45|` otherwise;
in particular `threshold(DisplayOffWarning, 45) = 30`,
`threshold(DisplayOffWarning, 50) = 35` and
`threshold(DisplayOffWarning, 600) = 555`. -/
theorem C7_threshold_arithmetic (R : ℚ) (hR : 0 < R) :
    threshold HALFWAY_TO_SCREENSAVER R = DVal.fin (R * (1 / 2)) ∧
    threshold THREE_QUARTERS_TO_SCREENSAVER R = DVal.fin (R * (3 / 4)) ∧
    threshold SCREENSAVER R = DVal.fin |R - 5| ∧
    threshold DISPLAY_OFF_WARNING R =
      DVal.fin (if R ≤ 60 then |R - 15| else |R - 45|) ∧
    threshold DISPLAY_OFF_WARNING 45 = DVal.fin 30 ∧
    threshold DISPLAY_OFF_WARNING 50 = DVal.fin 35 ∧
    threshold DISPLAY_OFF_WARNING 600 = DVal.fin 555 := by
  refine ⟨threshold_halfway R hR, threshold_three_quarters R hR,
    threshold_screensaver R hR, threshold_warning R hR, ?_, ?_, ?_⟩ <;>
    norm_num [threshold, toSecondsOrInf]

/-- C7 (witness): the amended theorem applied at `R = 45`. -/
theorem C7_witness :
    (0 : ℚ) < 45 ∧ threshold HALFWAY_TO_SCREENSAVER 45 = DVal.fin (45 * (1 / 2)) :=
  ⟨by norm_num, (C7_threshold_arithmetic 45 (by norm_num)).1⟩

/-- C9 (confirmed): starting from the notification-gate map with every
alert-eligible stage unnotified, toggling `SCREENSAVER` makes
`stage_was_notified(SCREENSAVER)` true; after `reset_attributes` every
alert-eligible stage reads unnotified again and the whole map equals the
initial all-false map. -/
theorem C9_notification_gate :
    stageWasNotified (toggleNotifiedStatus notifierStages SCREENSAVER) SCREENSAVER
      = true ∧
    (stagesCompatibleForAlerts.all fun s =>
      !(stageWasNotified
          (resetAttributes (toggleNotifiedStatus notifierStages SCREENSAVER)) s))
      = true ∧
    (allStages.all fun s =>
      resetAttributes (toggleNotifiedStatus notifierStages SCREENSAVER) s
        == notifierStages s) = true := by
  decide

/-- C6 (confirmed): with screensaver timeout 600, display-off timeout
1200, idle seconds 305, no fallback interval and no live off-signals, the
resolution loop commits `HALFWAY_TO_SCREENSAVER` over the baseline
`USER_IDLE` state (305 exceeds the halfway threshold 300 but not the
three-quarters threshold 450), leaving the display-off session state
untouched. -/
theorem C6_halfway_scenario :
    isIdle 305 = true ∧
    qGtD 305 (threshold HALFWAY_TO_SCREENSAVER 600) = true ∧
    qGtD 305 (threshold THREE_QUARTERS_TO_SCREENSAVER 600) = false ∧
    resolveStage true true true none false (some 600) (some 1200) false false 305
        ⟨USER_IDLE, false, false, none⟩ =
      ⟨HALFWAY_TO_SCREENSAVER, false, false, none⟩ := by
  refine ⟨by norm_num [isIdle, IS_IDLE_START_TIME], ?_, ?_, ?_⟩ <;>
    norm_num [resolveStage, stageWalk, refFor, threshold, toSecondsOrInf, qGtD,
      optTruthy, validateIntervalValue, getMachinesAvailableStages,
      idleModeStages_eq, updateDisplayOffStage, stageLevel]

/-- C3 (confirmed): with the module-level `displayWasOff` flag set and a
valid display-mode configuration, the first poll whose idle reading is
not idle commits `WAKE_UP`, clears the flag and returns without further
stage evaluation (the poll result is the early `ok`); and any poll with
the flag clear and continued activity never commits `WAKE_UP` (it
commits the `USER_ACTIVE` baseline) and leaves the flag clear. -/
theorem C3_wake_once :
    (∀ (args : PollArgs) (inp : PollInput) (st : Session),
        st.displayWasOff = true →
        isIdle inp.idleSeconds = false →
        checkDisplayModes inp.screensaverTime inp.displayOffTime = true →
        (detectCurrentStage args inp st).1.idleStage = WAKE_UP ∧
        (detectCurrentStage args inp st).1.displayWasOff = false ∧
        (detectCurrentStage args inp st).2 = .ok ()) ∧
    (∀ (args : PollArgs) (inp : PollInput) (st : Session),
        st.displayWasOff = false →
        isIdle inp.idleSeconds = false →
        checkDisplayModes inp.screensaverTime inp.displayOffTime = true →
        (detectCurrentStage args inp st).1.idleStage = USER_ACTIVE ∧
        (detectCurrentStage args inp st).1.idleStage ≠ WAKE_UP ∧
        (detectCurrentStage args inp st).1.displayWasOff = false) := by
  constructor
  · intro args inp st h1 h2 h3
    rw [detect_wake args inp st h1 h2 h3]
    exact ⟨rfl, rfl, rfl⟩
  · intro args inp st h1 h2 h3
    simp [detectCurrentStage, h1, h2, h3, modesAreSetCallOk, modesAreSetParams,
      modesAreSetCallKwargs]

/-- C3 (witness): the wake-once theorem at a concrete wake poll and a
concrete follow-up active poll. -/
theorem C3_witness :
    ((detectCurrentStage ⟨none, false⟩ ⟨1 / 100, some 1200, some 600, false, false⟩
        ⟨DISPLAY_OFF, true, true, some 900⟩).1.idleStage = WAKE_UP ∧
     (detectCurrentStage ⟨none, false⟩ ⟨1 / 100, some 1200, some 600, false, false⟩
        ⟨DISPLAY_OFF, true, true, some 900⟩).1.displayWasOff = false) ∧
    (detectCurrentStage ⟨none, false⟩ ⟨1 / 100, some 1200, some 600, false, false⟩
        ⟨USER_ACTIVE, false, true, some 900⟩).1.idleStage ≠ WAKE_UP := by
  have hidle : isIdle (1 / 100) = false := by
    norm_num [isIdle, IS_IDLE_START_TIME]
  have hcfg : checkDisplayModes (some 600) (some 1200) = true := by
    norm_num [checkDisplayModes, optTruthy]
  refine ⟨⟨?_, ?_⟩, ?_⟩
  · exact (C3_wake_once.1 ⟨none, false⟩ ⟨1 / 100, some 1200, some 600, false, false⟩
      ⟨DISPLAY_OFF, true, true, some 900⟩ rfl hidle hcfg).1
  · exact (C3_wake_once.1 ⟨none, false⟩ ⟨1 / 100, some 1200, some 600, false, false⟩
      ⟨DISPLAY_OFF, true, true, some 900⟩ rfl hidle hcfg).2.1
  · exact (C3_wake_once.2 ⟨none, false⟩ ⟨1 / 100, some 1200, some 600, false, false⟩
      ⟨USER_ACTIVE, false, true, some 900⟩ rfl hidle hcfg).2.1

/-- C8 (confirmed): when both timeouts are present (truthy), the poll
raises the distinct `AssertionError` exactly when the display-off
timeout is not strictly greater than the screensaver timeout, and in
that case the session state is returned untouched (no stage resolution
result); when it is strictly greater, that failure never occurs. -/
theorem C8_config_validation :
    ∀ (args : PollArgs) (inp : PollInput) (st : Session) (s d : ℚ),
      inp.screensaverTime = some s → inp.displayOffTime = some d →
      s ≠ 0 → d ≠ 0 →
      (((detectCurrentStage args inp st).2 = .error .assertionError) ↔ ¬(d > s)) ∧
      (¬(d > s) → (detectCurrentStage args inp st).1 = st) := by
  intro args inp st s d hs hd hs0 hd0
  have hok : modesAreSetCallOk = false := rfl
  have hcdm : checkDisplayModes inp.screensaverTime inp.displayOffTime
      = decide (d > s) := by
    simp [checkDisplayModes, hs, hd, optTruthy, hs0, hd0]
  by_cases hgt : d > s
  · have htrue : checkDisplayModes inp.screensaverTime inp.displayOffTime
        = true := by
      rw [hcdm]
      exact decide_eq_true hgt
    refine ⟨⟨fun habs => ?_, fun hngt => absurd hgt hngt⟩,
      fun hngt => absurd hgt hngt⟩
    exfalso
    cases hidle : isIdle inp.idleSeconds <;> cases hw : st.displayWasOff <;>
      simp [detectCurrentStage, htrue, hidle, hw, hok] at habs
  · have hfalse : checkDisplayModes inp.screensaverTime inp.displayOffTime
        = false := by
      rw [hcdm]
      exact decide_eq_false hgt
    refine ⟨⟨fun _ => hgt, fun _ => ?_⟩, fun _ => ?_⟩ <;>
      simp [detectCurrentStage, hfalse]

/-- C8 (witness): the validation theorem at the configurations
`(600, 600)` (failing) and `(600, 1200)` (passing). -/
theorem C8_witness :
    (detectCurrentStage ⟨none, false⟩ ⟨5, some 600, some 600, false, false⟩
        ⟨USER_ACTIVE, false, false, none⟩).2 = .error .assertionError ∧
    ¬((detectCurrentStage ⟨none, false⟩ ⟨5, some 1200, some 600, false, false⟩
        ⟨USER_ACTIVE, false, false, none⟩).2 = .error .assertionError) := by
  constructor
  · exact (C8_config_validation ⟨none, false⟩ ⟨5, some 600, some 600, false, false⟩
      ⟨USER_ACTIVE, false, false, none⟩ 600 600 rfl rfl (by norm_num)
      (by norm_num)).1.mpr (by norm_num)
  · intro h
    exact absurd ((C8_config_validation ⟨none, false⟩
      ⟨5, some 1200, some 600, false, false⟩ ⟨USER_ACTIVE, false, false, none⟩
      600 1200 rfl rfl (by norm_num) (by norm_num)).1.mp h) (by norm_num)

/-- C10 (counterexample): the claim says every poll in which the wake
branch does not return early raises `TypeError` at the
`modes_are_set(verify_both_are_set=False)` call.  A poll with an invalid
display-mode configuration (screensaver 600, display-off 600) and the
wake flag clear instead raises `AssertionError` at
`check_display_modes`, before that call. -/
theorem C10_counterexample :
    (Session.displayWasOff ⟨USER_ACTIVE, false, false, none⟩ = false) ∧
    (detectCurrentStage ⟨none, false⟩ ⟨5, some 600, some 600, false, false⟩
        ⟨USER_ACTIVE, false, false, none⟩).2 = .error .assertionError ∧
    (detectCurrentStage ⟨none, false⟩ ⟨5, some 600, some 600, false, false⟩
        ⟨USER_ACTIVE, false, false, none⟩).2 ≠ .error .typeError := by
  have h : checkDisplayModes (some (600 : ℚ)) (some (600 : ℚ)) = false := by
    norm_num [checkDisplayModes, optTruthy]
  refine ⟨rfl, ?_, ?_⟩ <;> simp [detectCurrentStage, h]

/-- C10 (amended): the keyword `verify_both_are_set` matches no parameter
of `MacOS.modes_are_set`, and every poll that passes the display-mode
validation and in which the wake branch does not return early raises
`TypeError` at that call, before any reference-timer or stage-walk logic
runs, leaving only the baseline `USER_IDLE` / `USER_ACTIVE` stage
committed and the display-off flag unchanged. -/
theorem C10_typeerror_poll :
    modesAreSetCallOk = false ∧
    ∀ (args : PollArgs) (inp : PollInput) (st : Session),
      checkDisplayModes inp.screensaverTime inp.displayOffTime = true →
      (st.displayWasOff = false ∨ isIdle inp.idleSeconds = true) →
      (detectCurrentStage args inp st).2 = .error .typeError ∧
      (detectCurrentStage args inp st).1.idleStage =
        (if isIdle inp.idleSeconds then USER_IDLE else USER_ACTIVE) ∧
      (detectCurrentStage args inp st).1.displayWasOff = st.displayWasOff := by
  refine ⟨rfl, ?_⟩
  intro args inp st hcfg hnw
  have hok : modesAreSetCallOk = false := rfl
  rcases hnw with h | h
  · simp [detectCurrentStage, hcfg, h, hok]
  · simp [detectCurrentStage, hcfg, h, hok]

/-- C10 (witness): the amended theorem at a concrete idle poll with a
valid configuration. -/
theorem C10_witness :
    (detectCurrentStage ⟨none, false⟩ ⟨305, some 1200, some 600, false, false⟩
        ⟨USER_IDLE, false, false, none⟩).2 = .error .typeError :=
  (C10_typeerror_poll.2 ⟨none, false⟩ ⟨305, some 1200, some 600, false, false⟩
    ⟨USER_IDLE, false, false, none⟩ (by norm_num [checkDisplayModes, optTruthy])
    (Or.inl rfl)).1

/-- C2 (counterexample): the claim says a poll with the live display-off
sensor true whose walk selects a candidate always commits `DISPLAY_OFF`.
With both modes configured (screensaver 600, display-off 1200), idle
seconds 700 and the live display-off sensor true, the walk commits
`SCREENSAVER` (the first reachable stage at or above `SCREENSAVER`
level), not `DISPLAY_OFF`. -/
theorem C2_counterexample :
    resolveStage true true true none false (some 600) (some 1200) false true 700
        ⟨USER_IDLE, false, false, none⟩ =
      ⟨SCREENSAVER, true, true, some 700⟩ ∧
    SCREENSAVER ≠ DISPLAY_OFF := by
  refine ⟨?_, by decide⟩
  norm_num [resolveStage, stageWalk, refFor, threshold, toSecondsOrInf, qGtD,
    optTruthy, validateIntervalValue, getMachinesAvailableStages,
    idleModeStages_eq, updateDisplayOffStage, stageLevel]

/-- C2 (amended): on a poll with the live display-off signal true and no
custom interval, the walk commits the first reachable stage at or above
`SCREENSAVER` level with an available reference and records the
display-off session state: `DISPLAY_OFF` when only display-off mode is
configured (the reachable set is `[DISPLAY_OFF]`), but `SCREENSAVER`
when both modes are configured, regardless of which earlier candidate
matched. -/
theorem C2_displayoff_override :
    (∀ (d secs : ℚ) (st : Session), d ≠ 0 →
        (resolveStage false false true none false none (some d) false true secs
            st).idleStage = DISPLAY_OFF ∧
        (resolveStage false false true none false none (some d) false true secs
            st).displayWasOff = true) ∧
    (∀ (s d secs : ℚ) (st : Session), s ≠ 0 →
        (resolveStage true true true none false (some s) (some d) false true secs
            st).idleStage = SCREENSAVER ∧
        (resolveStage true true true none false (some s) (some d) false true secs
            st).idleStage ≠ DISPLAY_OFF ∧
        (resolveStage true true true none false (some s) (some d) false true secs
            st).displayWasOff = true) := by
  constructor
  · intro d secs st hd
    have h : resolveStage false false true none false none (some d) false true secs st
        = updateDisplayOffStage secs DISPLAY_OFF
            { st with idleStage := DISPLAY_OFF } := by
      simp [resolveStage, validateIntervalValue, optTruthy, hd,
        getMachinesAvailableStages, displayOffStages_false_eq, stageWalk, refFor,
        stageLevel]
    rw [h]
    exact ⟨rfl, rfl⟩
  · intro s d secs st hs
    have h : resolveStage true true true none false (some s) (some d) false true secs st
        = updateDisplayOffStage secs SCREENSAVER
            { st with idleStage := SCREENSAVER } := by
      simp [resolveStage, validateIntervalValue, optTruthy, hs,
        getMachinesAvailableStages, idleModeStages_eq, stageWalk, refFor,
        stageLevel]
    rw [h]
    refine ⟨rfl, ?_, rfl⟩
    simp [updateDisplayOffStage]

/-- C2 (witness): the amended theorem at the display-off-only
configuration (timeout 1200, idle 700) and at the both-modes
configuration (600/1200, idle 700). -/
theorem C2_witness :
    (resolveStage false false true none false none (some 1200) false true 700
        ⟨USER_IDLE, false, false, none⟩).idleStage = DISPLAY_OFF ∧
    (resolveStage true true true none false (some 600) (some 1200) false true 700
        ⟨USER_IDLE, false, false, none⟩).idleStage = SCREENSAVER := by
  constructor
  · exact (C2_displayoff_override.1 1200 700 ⟨USER_IDLE, false, false, none⟩
      (by norm_num)).1
  · exact (C2_displayoff_override.2 600 1200 700 ⟨USER_IDLE, false, false, none⟩
      (by norm_num)).1

/-- C4 (counterexample): the claim says that when several reachable
stages' thresholds are satisfied (no display-off signal, no fallback),
the lowest-level satisfied stage is committed.  With screensaver 600,
display-off 1200 and idle seconds 460, both `HALFWAY_TO_SCREENSAVER`
(threshold 300) and `THREE_QUARTERS_TO_SCREENSAVER` (threshold 450) are
satisfied, yet the walk commits the higher-level
`THREE_QUARTERS_TO_SCREENSAVER`: the loop does not stop at a match
unless a display-off or fallback commit fires, so the last satisfied
stage wins. -/
theorem C4_counterexample :
    qGtD 460 (threshold HALFWAY_TO_SCREENSAVER 600) = true ∧
    qGtD 460 (threshold THREE_QUARTERS_TO_SCREENSAVER 600) = true ∧
    stageLevel HALFWAY_TO_SCREENSAVER < stageLevel THREE_QUARTERS_TO_SCREENSAVER ∧
    (resolveStage true true true none false (some 600) (some 1200) false false 460
        ⟨USER_IDLE, false, false, none⟩).idleStage = THREE_QUARTERS_TO_SCREENSAVER ∧
    THREE_QUARTERS_TO_SCREENSAVER ≠ HALFWAY_TO_SCREENSAVER := by
  refine ⟨?_, ?_, by decide, ?_, by decide⟩ <;>
    norm_num [resolveStage, stageWalk, refFor, threshold, toSecondsOrInf, qGtD,
      optTruthy, validateIntervalValue, getMachinesAvailableStages,
      idleModeStages_eq, updateDisplayOffStage, stageLevel]

/-- C4 (amended): with no display-off determination and no fallback
interval, the walk commits the last stage, in ascending walk order,
whose threshold is satisfied among the stages visited before the first
missing-reference break (`walkLastSatisfied`) — the highest-level
satisfied stage, not the lowest — and falls back to the incoming
baseline stage when no visited stage is satisfied, leaving the
display-off session state unchanged. -/
theorem C4_walk_commits_last_satisfied :
    ∀ (ctx : ResolveCtx) (L : List idleStages) (st : Session),
      ctx.isDisplayOff = false → ctx.refInterval = none →
      (stageWalk ctx L st).idleStage =
        (walkLastSatisfied ctx L).getD st.idleStage ∧
      (stageWalk ctx L st).displayWasOff = st.displayWasOff := by
  intro ctx L
  induction L with
  | nil =>
    intro st h1 h2
    exact ⟨rfl, rfl⟩
  | cons stage rest ih =>
    intro st h1 h2
    cases href : refFor ctx stage with
    | none =>
      refine ⟨?_, ?_⟩ <;> simp [stageWalk, walkLastSatisfied, href]
    | some r =>
      cases hc : qGtD ctx.seconds (threshold stage r) with
      | true =>
        have hwalk : stageWalk ctx (stage :: rest) st =
            stageWalk ctx rest { st with idleStage := stage } := by
          simp [stageWalk, href, h1, h2, hc]
        have hsat : satisfiesThreshold ctx stage = true := by
          simp [satisfiesThreshold, href, hc]
        obtain ⟨hi1, hi2⟩ := ih { st with idleStage := stage } h1 h2
        cases hrest : walkLastSatisfied ctx rest with
        | some t =>
          refine ⟨?_, ?_⟩
          · rw [hwalk, hi1, hrest]
            simp [walkLastSatisfied, href, hsat, hrest]
          · rw [hwalk, hi2]
        | none =>
          refine ⟨?_, ?_⟩
          · rw [hwalk, hi1, hrest]
            simp [walkLastSatisfied, href, hsat, hrest]
          · rw [hwalk, hi2]
      | false =>
        have hwalk : stageWalk ctx (stage :: rest) st = stageWalk ctx rest st := by
          simp [stageWalk, href, h1, hc]
        have hsat : satisfiesThreshold ctx stage = false := by
          simp [satisfiesThreshold, href, hc]
        obtain ⟨hi1, hi2⟩ := ih st h1 h2
        refine ⟨?_, by rw [hwalk, hi2]⟩
        rw [hwalk, hi1]
        cases hrest : walkLastSatisfied ctx rest <;>
          simp [walkLastSatisfied, href, hsat, hrest]

/-- C4 (witness): the amended theorem at the counterexample context,
where the last satisfied visited stage is
`THREE_QUARTERS_TO_SCREENSAVER`. -/
theorem C4_witness :
    (stageWalk ⟨460, none, some 600, some 1200, false⟩ idleModeStages
        ⟨USER_IDLE, false, false, none⟩).idleStage =
      (walkLastSatisfied ⟨460, none, some 600, some 1200, false⟩
          idleModeStages).getD USER_IDLE :=
  (C4_walk_commits_last_satisfied ⟨460, none, some 600, some 1200, false⟩
    idleModeStages ⟨USER_IDLE, false, false, none⟩ rfl rfl).1

/-- C5 (confirmed): with neither timeout configured and a valid fallback
interval, every idle poll's resolution commits `UserIdle` — never a
screensaver-class or display-off-class stage — and once the session's
display-off flag is set by the fallback commit, a following poll that is
no longer idle (with a valid configuration) commits `WAKE_UP`, ending
the idle period. -/
theorem C5_fallback_user_idle :
    ∀ (I secs : ℚ) (cso ssr dto : Bool) (st : Session),
      I ≠ 0 → isIdle secs = true → st.idleStage = USER_IDLE →
      (resolveStage false false false (some I) cso none none ssr dto secs
          st).idleStage = USER_IDLE ∧
      (resolveStage false false false (some I) cso none none ssr dto secs
          st).idleStage ∉
        [HALFWAY_TO_SCREENSAVER, THREE_QUARTERS_TO_SCREENSAVER, SCREENSAVER,
         DISPLAY_OFF_WARNING, DISPLAY_OFF] ∧
      (∀ (args2 : PollArgs) (inp2 : PollInput),
        (resolveStage false false false (some I) cso none none ssr dto secs
            st).displayWasOff = true →
        isIdle inp2.idleSeconds = false →
        checkDisplayModes inp2.screensaverTime inp2.displayOffTime = true →
        (detectCurrentStage args2 inp2
            (resolveStage false false false (some I) cso none none ssr dto secs
              st)).1.idleStage = WAKE_UP) := by
  intro I secs cso ssr dto st hI hidle hstage
  have hres : resolveStage false false false (some I) cso none none ssr dto secs st
      = stageWalk ⟨secs, some I, none, none, ssr || dto⟩ idleOnlyStages st := by
    simp [resolveStage, validateIntervalValue, optTruthy, hI,
      getMachinesAvailableStages]
  have e0 : ∀ t : idleStages, t = USER_IDLE ∨ t = WAKE_UP →
      threshold t I = threshold USER_ACTIVE I := by
    intro t ht
    rcases ht with h | h <;> subst h <;>
      cases hts : toSecondsOrInf I <;> simp [threshold, hts]
  have hmain : (resolveStage false false false (some I) cso none none ssr dto secs
      st).idleStage = USER_IDLE := by
    rw [hres]
    cases hcond : ((ssr || dto) || qGtD secs (threshold USER_ACTIVE I)) with
    | true =>
      simp [idleOnlyStages_eq, stageWalk, refFor, hcond, updateDisplayOffStage]
    | false =>
      simp [idleOnlyStages_eq, stageWalk, refFor, hcond,
        e0 USER_IDLE (Or.inl rfl), e0 WAKE_UP (Or.inr rfl), hstage]
  refine ⟨hmain, ?_, ?_⟩
  · rw [hmain]
    simp
  · intro args2 inp2 hdw hidle2 hcfg2
    rw [detect_wake args2 inp2 _ hdw hidle2 hcfg2]

/-- C5 (witness): the fallback theorem at interval 300 and idle seconds
301, followed by a concrete non-idle poll that wakes. -/
theorem C5_witness :
    (resolveStage false false false (some 300) false none none false false 301
        ⟨USER_IDLE, false, false, none⟩).idleStage = USER_IDLE ∧
    (detectCurrentStage ⟨some 300, false⟩ ⟨1 / 100, none, none, false, false⟩
        (resolveStage false false false (some 300) false none none false false 301
          ⟨USER_IDLE, false, false, none⟩)).1.idleStage = WAKE_UP := by
  have h := C5_fallback_user_idle 300 301 false false false
    ⟨USER_IDLE, false, false, none⟩ (by norm_num)
    (by norm_num [isIdle, IS_IDLE_START_TIME]) rfl
  refine ⟨h.1, h.2.2 ⟨some 300, false⟩ ⟨1 / 100, none, none, false, false⟩ ?_
    (by norm_num [isIdle, IS_IDLE_START_TIME]) (by norm_num [checkDisplayModes, optTruthy])⟩
  norm_num [resolveStage, stageWalk, refFor, threshold, toSecondsOrInf, qGtD,
    optTruthy, validateIntervalValue, getMachinesAvailableStages,
    idleOnlyStages_eq, updateDisplayOffStage, stageLevel]

end IdleDetector
